import Mathlib

set_option linter.unusedVariables false

/-!
Shallow embedding of `clipseg.py` (two ComfyUI nodes: `CLIPSeg` and
`CombineMasks`) and proofs about its mask post-processing pipeline.

Modelling conventions:
* 2-D float tensors / numpy arrays of scalars are `Mat` (dimensions plus a
  value function on indices); exact rationals `ℚ` stand for the float values.
* uint8 RGB arrays are `Img` (channel triples of naturals, meant < 256);
  float RGB tensors are `QImg`.
* External library routines that the module merely calls (`torch.sigmoid`,
  `scipy.ndimage.gaussian_filter`, `cv2.resize`, the matplotlib colormaps,
  `torchvision.to_pil_image`, and the pretrained CLIPSeg model itself) are
  parameters, bundled in the `Libs` structure: the embedding is quantified
  over every (successful) behaviour of those collaborators.
* A Python call that raises is `Except.error`; `PyErr.typeError` models the
  `TypeError` Python raises when a call supplies fewer positional arguments
  than the callee requires.
-/

/-- Python `int()` applied to a float: truncation toward zero. -/
def pyInt (q : ℚ) : ℤ :=
  if 0 ≤ q then ⌊q⌋ else -⌊-q⌋

/-- numpy `.astype(np.uint8)` on a float: truncate toward zero, wrap mod 256. -/
def npUint8 (q : ℚ) : ℕ :=
  (pyInt q).toNat % 256

/-- OpenCV saturating cast to uint8: clamp an integer into `[0, 255]`. -/
def satUint8 (z : ℤ) : ℕ :=
  (min 255 (max 0 z)).toNat

/-- OpenCV rounding of the weighted sum to the nearest integer (ties are
irrelevant to every statement below, so Mathlib `round` models it). -/
def cvRound (q : ℚ) : ℤ :=
  round q

/-- torch scalar dtypes used by the module. -/
inductive Dtype
  | float16
  | float32
deriving DecidableEq

/-- A torch device as returned by the host's `get_torch_device()`. -/
inductive Device
  | cpu
  | cuda (idx : ℕ)
deriving DecidableEq

/-- A Python exception escaping a module function. -/
inductive PyErr
  | typeError (msg : String)
deriving DecidableEq

/-- A 2-D scalar tensor / numpy array: row and column counts and the value at
each index pair (only indices `i < rows`, `j < cols` are meaningful). -/
structure Mat where
  rows : ℕ
  cols : ℕ
  val : ℕ → ℕ → ℚ

/-- A uint8 RGB image: the pixel at `(i, j)` is an (r, g, b) triple of
naturals, each meant to lie in `[0, 255]`. -/
structure Img where
  rows : ℕ
  cols : ℕ
  px : ℕ → ℕ → ℕ × ℕ × ℕ

/-- A float RGB image tensor (values meant in `[0, 1]`). -/
structure QImg where
  rows : ℕ
  cols : ℕ
  px : ℕ → ℕ → ℚ × ℚ × ℚ

/-- Elementwise `+` of torch tensors of equal shape (the only way the module
adds masks; broadcasting is never exercised with distinct shapes). -/
def Mat.add (a b : Mat) : Mat :=
  ⟨a.rows, a.cols, fun i j => a.val i j + b.val i j⟩

/-- All meaningful entries of a `Mat`, row-major, as a list. -/
def Mat.elems (m : Mat) : List ℚ :=
  (List.range m.rows).flatMap fun i => (List.range m.cols).map fun j => m.val i j

/-- torch `tensor.min()` (the value; meaningful for nonempty tensors, as in
the source, where the tensor is never empty). -/
def Mat.minVal (m : Mat) : ℚ :=
  m.elems.min?.getD 0

/-- torch `tensor.max()`. -/
def Mat.maxVal (m : Mat) : ℚ :=
  m.elems.max?.getD 0

/-- The external collaborators of `clipseg.py`, as (total) functions: the
scalar sigmoid, `gaussian_filter(arr, sigma)`, `cv2.resize(img, (w, h))`,
the two matplotlib colormaps (value in `[0,1]` to an (r,g,b) triple in
`[0,1]`; the source drops the alpha channel), `to_pil_image`, the pretrained
CLIPSeg model's logits for a prompt and image list, and the host's device
and fp16 queries. -/
structure Libs where
  sigmoid : ℚ → ℚ
  gaussian_filter : Mat → ℚ → Mat
  resize : Img → ℕ × ℕ → Img
  viridis : ℚ → ℚ × ℚ × ℚ
  greys_r : ℚ → ℚ × ℚ × ℚ
  to_pil : QImg → Img
  clipseg_logits : String → List Img → Mat
  should_use_fp16 : Bool
  torch_device : Device

/-- `tensor_to_numpy` (clipseg.py lines 27-30): squeeze the batch dimension
and scale 0-1 floats to 0-255 uint8. -/
def tensor_to_numpy (tensor : QImg) : Img :=
  ⟨tensor.rows, tensor.cols, fun i j =>
    let c := tensor.px i j
    (npUint8 (c.1 * 255), npUint8 (c.2.1 * 255), npUint8 (c.2.2 * 255))⟩

/-- `numpy_to_tensor` (lines 32-35): uint8 to float, divided by 255 (the
`.type(dtype)` cast is value-preserving in this model). -/
def numpy_to_tensor (array : Img) (dtype : Dtype) : QImg :=
  ⟨array.rows, array.cols, fun i j =>
    let c := array.px i j
    ((c.1 : ℚ) / 255, (c.2.1 : ℚ) / 255, (c.2.2 : ℚ) / 255)⟩

/-- `apply_colormap` (lines 37-40): apply the colormap, keep the first three
channels, scale by 255 and cast to uint8. -/
def apply_colormap (colormap : ℚ → ℚ × ℚ × ℚ) (mask : Mat) : Img :=
  ⟨mask.rows, mask.cols, fun i j =>
    let c := colormap (mask.val i j)
    (npUint8 (c.1 * 255), npUint8 (c.2.1 * 255), npUint8 (c.2.2 * 255))⟩

/-- `resize_image` (lines 42-44): delegate to `cv2.resize`. -/
def resize_image (ext : Libs) (image : Img) (dimensions : ℕ × ℕ) : Img :=
  ext.resize image dimensions

/-- `cv2.addWeighted(src1, alpha, src2, beta, gamma)`: per channel,
saturating uint8 cast of the rounded weighted sum. -/
def cv2_addWeighted (src1 : Img) (alpha : ℚ) (src2 : Img) (beta : ℚ) (gamma : ℚ) : Img :=
  ⟨src1.rows, src1.cols, fun i j =>
    let p := src1.px i j
    let q := src2.px i j
    (satUint8 (cvRound (alpha * p.1 + beta * q.1 + gamma)),
     satUint8 (cvRound (alpha * p.2.1 + beta * q.2.1 + gamma)),
     satUint8 (cvRound (alpha * p.2.2 + beta * q.2.2 + gamma)))⟩

/-- `overlay_image` (lines 46-48):
`cv2.addWeighted(background, 1 - alpha, foreground, alpha, 0)`. -/
def overlay_image (background foreground : Img) (alpha : ℚ) : Img :=
  cv2_addWeighted background (1 - alpha) foreground alpha 0

/-- The kernel size computed by `dilate_mask` (line 52):
`int(dilation_factor * 2) + 1`. -/
def kernel_size (dilation_factor : ℚ) : ℤ :=
  pyInt (dilation_factor * 2) + 1

/-- The index pairs of a `k × k` kernel window anchored at the kernel's
centre `(k / 2, k / 2)` and placed at `(i, j)`. -/
def windowIdx (k : ℕ) (i j : ℕ) : List (ℤ × ℤ) :=
  (List.range k).flatMap fun ti => (List.range k).map fun tj =>
    ((i : ℤ) + ti - ((k / 2 : ℕ) : ℤ), (j : ℤ) + tj - ((k / 2 : ℕ) : ℤ))

/-- `cv2.dilate` with a `k × k` all-ones kernel, one iteration: each output
entry is the maximum of the mask over the kernel window anchored at the
kernel's centre, out-of-bounds neighbours not contributing (OpenCV's
default border value for dilation). -/
def cv2_dilate (m : Mat) (k : ℕ) : Mat :=
  ⟨m.rows, m.cols, fun i j =>
    (((windowIdx k i j).filterMap fun p =>
        if 0 ≤ p.1 ∧ p.1 < (m.rows : ℤ) ∧ 0 ≤ p.2 ∧ p.2 < (m.cols : ℤ) then
          some (m.val p.1.toNat p.2.toNat)
        else none).max?).getD 0⟩

/-- `dilate_mask` (lines 50-55): dilate with the all-ones square kernel of
side `kernel_size dilation_factor` (the `.type(dtype)` cast is
value-preserving in this model). -/
def dilate_mask (mask : Mat) (dilation_factor : ℚ) (dtype : Dtype) : Mat :=
  cv2_dilate mask (kernel_size dilation_factor).toNat

/-- `get_heatmap` (lines 57-68), with its full parameter list
`(mask_dilated, image, dtype)`: viridis colormap, resize to the image's
`(shape[1], shape[0])`, overlay at alpha 0.5, convert to a tensor. -/
def get_heatmap (ext : Libs) (mask_dilated : Mat) (image : Img) (dtype : Dtype) : QImg :=
  let heatmap := apply_colormap ext.viridis mask_dilated
  let dimensions := (image.cols, image.rows)
  let heatmap_resized := resize_image ext heatmap dimensions
  let overlay_heatmap := overlay_image image heatmap_resized (1 / 2)
  numpy_to_tensor overlay_heatmap dtype

/-- `get_binary` (lines 70-81), with its full parameter list: Greys_r
colormap, resize, overlay at alpha 1, return the tensor and the resized
colormap array. -/
def get_binary (ext : Libs) (mask_dilated : Mat) (image : Img) (dtype : Dtype) : QImg × Img :=
  let binary_mask := apply_colormap ext.greys_r mask_dilated
  let dimensions := (image.cols, image.rows)
  let binary_mask_resized := resize_image ext binary_mask dimensions
  let overlay_binary := overlay_image image binary_mask_resized 1
  (numpy_to_tensor overlay_binary dtype, binary_mask_resized)

/-- The directory `do_clipseg` loads the processor and model from
(lines 157-158). -/
def clipseg_model_dir : String :=
  "./clipseg-rd64-refined"

/-- Message of the `TypeError` raised at line 185, where
`dilate_mask(mask_normalized, dilation_factor)` supplies only 2 of
`dilate_mask`'s 3 required positional arguments. -/
def msg_dilate_mask_arity : String :=
  "dilate_mask() missing 1 required positional argument: dtype"

/-- Message of the `TypeError` that line 141,
`get_heatmap(mask_dilated, pil_image)`, would raise (2 of 3 required
positional arguments). -/
def msg_get_heatmap_arity : String :=
  "get_heatmap() missing 1 required positional argument: dtype"

/-- Message of the `TypeError` raised at line 234, where
`numpy_to_tensor(overlay_heatmap)` supplies 1 of `numpy_to_tensor`'s 2
required positional arguments. -/
def msg_numpy_to_tensor_arity : String :=
  "numpy_to_tensor() missing 1 required positional argument: dtype"

/-- Observable side effects of a node invocation: loading the CLIPSeg
processor or model from disk, running model inference, or writing to
persistent storage (which the module never does). -/
inductive Effect
  | loadProcessor (path : String)
  | loadModel (path : String)
  | runInference
  | writeStorage (path : String)
deriving DecidableEq

/-- The instance attributes of a `CLIPSeg` node object: `self.dtype` and
`self.device`, both assigned in `__init__` (lines 85-87) and nowhere else. -/
structure CLIPSegState where
  dtype : Dtype
  device : Device
deriving DecidableEq

namespace CLIPSeg

/-- `CLIPSeg.__init__` (lines 85-87): pick float16 when the host says so,
and the host's torch device. -/
def init (ext : Libs) : CLIPSegState :=
  ⟨if ext.should_use_fp16 then Dtype.float16 else Dtype.float32, ext.torch_device⟩

/-- `CLIPSeg.do_clipseg` (lines 155-167): load the processor and the model
from `./clipseg-rd64-refined`, run the processor and the model, and return
`outputs.logits[0]`.  It reads `self` only for `self.device`; the returned
effect trace records the loads and the inference. -/
def do_clipseg (ext : Libs) (s : CLIPSegState) (prompt : String) (images : List Img) :
    Mat × List Effect :=
  (ext.clipseg_logits prompt images,
   [Effect.loadProcessor clipseg_model_dir, Effect.loadModel clipseg_model_dir,
    Effect.runInference])

/-- Line 171: `torch.sigmoid(flat)`, elementwise. -/
def sigmoidMat (ext : Libs) (m : Mat) : Mat :=
  ⟨m.rows, m.cols, fun i j => ext.sigmoid (m.val i j)⟩

/-- Line 174: `torch.where(tensor > threshold, tensor, torch.tensor(0))` —
keep entries strictly above the threshold, zero the rest. -/
def thresholdStep (threshold : ℚ) (tensor : Mat) : Mat :=
  ⟨tensor.rows, tensor.cols, fun i j =>
    if tensor.val i j > threshold then tensor.val i j else 0⟩

/-- Line 182:
`(tensor_smoothed - tensor_smoothed.min()) / (tensor_smoothed.max() - tensor_smoothed.min())`,
with no guard on the divisor. -/
def normalizeStep (m : Mat) : Mat :=
  ⟨m.rows, m.cols, fun i j => (m.val i j - m.minVal) / (m.maxVal - m.minVal)⟩

/-- `CLIPSeg.get_mask_dilated` (lines 169-185): sigmoid, threshold, Gaussian
blur with `sigma = blur`, normalize — and then line 185 calls
`dilate_mask(mask_normalized, dilation_factor)`, supplying 2 of
`dilate_mask`'s 3 required positional arguments, so Python raises
`TypeError` on every invocation and the dilated mask is never produced. -/
def get_mask_dilated (ext : Libs) (s : CLIPSegState) (flat : Mat)
    (threshold blur : ℚ) (dilation_factor : ℚ) : Except PyErr Mat :=
  let tensor := sigmoidMat ext flat
  let tensor_thresholded := thresholdStep threshold tensor
  let tensor_smoothed := ext.gaussian_filter tensor_thresholded blur
  let mask_normalized := normalizeStep tensor_smoothed
  Except.error (PyErr.typeError msg_dilate_mask_arity)

/-- `CLIPSeg.segment_image` (lines 123-153): convert the host image to PIL,
run `do_clipseg`, then `get_mask_dilated` — which always raises, so the
`TypeError` propagates (there is no handler) and none of lines 141-153
(heatmap, binary overlay, the three returned tensors) ever runs.  Had
line 139 succeeded, line 141 `get_heatmap(mask_dilated, pil_image)` would
itself raise a `TypeError` for the same reason.  The returned triple is the
`Except` result, the (unchanged) node state and the effect trace. -/
def segment_image (ext : Libs) (s : CLIPSegState) (image : QImg) (prompt : String)
    (blur threshold : ℚ) (dilation_factor : ℚ) :
    Except PyErr (Mat × QImg × QImg) × CLIPSegState × List Effect :=
  let pil_image := ext.to_pil image
  let clip := do_clipseg ext s prompt [pil_image]
  match get_mask_dilated ext s clip.1 threshold blur dilation_factor with
  | Except.error e => (Except.error e, s, clip.2)
  | Except.ok mask_dilated =>
      (Except.error (PyErr.typeError msg_get_heatmap_arity), s, clip.2)

end CLIPSeg

namespace CombineMasks

/-- Line 215:
`combined_mask = mask_1 + mask_2 + mask_3 if mask_3 is not None else mask_1 + mask_2`. -/
def combined_mask (mask_1 mask_2 : Mat) (mask_3 : Option Mat) : Mat :=
  match mask_3 with
  | some m3 => Mat.add (Mat.add mask_1 mask_2) m3
  | none => Mat.add mask_1 mask_2

/-- Lines 220, 224-225: viridis colormap of the combined mask, resized to the
image's `(shape[1], shape[0])`. -/
def heatmap_resized (ext : Libs) (image_np : Img) (cm : Mat) : Img :=
  resize_image ext (apply_colormap ext.viridis cm) (image_np.cols, image_np.rows)

/-- Lines 221, 226: Greys_r colormap of the combined mask, resized. -/
def binary_mask_resized (ext : Libs) (image_np : Img) (cm : Mat) : Img :=
  resize_image ext (apply_colormap ext.greys_r cm) (image_np.cols, image_np.rows)

/-- Lines 229-230: the heatmap overlaid on the image at `alpha_heatmap = 0.5`. -/
def overlay_heatmap (ext : Libs) (image_np : Img) (cm : Mat) : Img :=
  overlay_image image_np (heatmap_resized ext image_np cm) (1 / 2)

/-- Lines 229, 231: the binary colormap overlaid on the image at
`alpha_binary = 1`. -/
def overlay_binary (ext : Libs) (image_np : Img) (cm : Mat) : Img :=
  overlay_image image_np (binary_mask_resized ext image_np cm) 1

/-- `CombineMasks.combine_masks` (lines 211-237): sum the masks, build both
overlays — and then line 234 calls `numpy_to_tensor(overlay_heatmap)`,
supplying 1 of `numpy_to_tensor`'s 2 required positional arguments, so
Python raises `TypeError` on every invocation and the method never returns
its `(combined_mask, image_out_heatmap, image_out_binary)` triple. -/
def combine_masks (ext : Libs) (input_image : QImg) (mask_1 mask_2 : Mat)
    (mask_3 : Option Mat) : Except PyErr (Mat × QImg × QImg) :=
  let cm := combined_mask mask_1 mask_2 mask_3
  let image_np := tensor_to_numpy input_image
  let hr := heatmap_resized ext image_np cm
  let br := binary_mask_resized ext image_np cm
  let oh := overlay_heatmap ext image_np cm
  let ob := overlay_binary ext image_np cm
  Except.error (PyErr.typeError msg_numpy_to_tensor_arity)

end CombineMasks

/-! Helper lemmas about `Mat.elems`, `Mat.minVal`, `Mat.maxVal`. -/

theorem Mat.mem_elems {m : Mat} {x : ℚ} :
    x ∈ m.elems ↔ ∃ i, i < m.rows ∧ ∃ j, j < m.cols ∧ m.val i j = x := by
  simp [Mat.elems, eq_comm]

theorem Mat.elems_ne_nil {m : Mat} (hr : 0 < m.rows) (hc : 0 < m.cols) :
    m.elems ≠ [] :=
  List.ne_nil_of_mem (Mat.mem_elems.mpr ⟨0, hr, 0, hc, rfl⟩)

theorem Mat.minVal_eq {m : Mat} (h : 0 < m.elems.length) :
    m.minVal = m.elems.minimum_of_length_pos h := by
  rw [Mat.minVal, List.getD_min?_eq_untop'_minimum, ← List.coe_minimum_of_length_pos h,
    WithTop.untop'_coe]

theorem Mat.maxVal_eq {m : Mat} (h : 0 < m.elems.length) :
    m.maxVal = m.elems.maximum_of_length_pos h := by
  rw [Mat.maxVal, List.getD_max?_eq_unbot'_maximum, ← List.coe_maximum_of_length_pos h,
    WithBot.unbot'_coe]

theorem Mat.minVal_mem {m : Mat} (hr : 0 < m.rows) (hc : 0 < m.cols) :
    ∃ i, i < m.rows ∧ ∃ j, j < m.cols ∧ m.val i j = m.minVal := by
  have hlen : 0 < m.elems.length := List.length_pos.mpr (Mat.elems_ne_nil hr hc)
  rw [Mat.minVal_eq hlen]
  exact Mat.mem_elems.mp (List.minimum_of_length_pos_mem hlen)

theorem Mat.maxVal_mem {m : Mat} (hr : 0 < m.rows) (hc : 0 < m.cols) :
    ∃ i, i < m.rows ∧ ∃ j, j < m.cols ∧ m.val i j = m.maxVal := by
  have hlen : 0 < m.elems.length := List.length_pos.mpr (Mat.elems_ne_nil hr hc)
  rw [Mat.maxVal_eq hlen]
  exact Mat.mem_elems.mp (List.maximum_of_length_pos_mem hlen)

theorem Mat.minVal_le {m : Mat} {i j : ℕ} (hi : i < m.rows) (hj : j < m.cols) :
    m.minVal ≤ m.val i j := by
  have hmem : m.val i j ∈ m.elems := Mat.mem_elems.mpr ⟨i, hi, j, hj, rfl⟩
  have hlen : 0 < m.elems.length := List.length_pos.mpr (List.ne_nil_of_mem hmem)
  rw [Mat.minVal_eq hlen]
  exact List.minimum_of_length_pos_le_of_mem hmem hlen

theorem Mat.le_maxVal {m : Mat} {i j : ℕ} (hi : i < m.rows) (hj : j < m.cols) :
    m.val i j ≤ m.maxVal := by
  have hmem : m.val i j ∈ m.elems := Mat.mem_elems.mpr ⟨i, hi, j, hj, rfl⟩
  have hlen : 0 < m.elems.length := List.length_pos.mpr (List.ne_nil_of_mem hmem)
  rw [Mat.maxVal_eq hlen]
  exact List.le_maximum_of_length_pos_of_mem hmem hlen

/-- Claim C8: the normalization at line 182 divides by
`tensor_smoothed.max() - tensor_smoothed.min()` with no guard: whenever the
smoothed tensor is nonempty and not constant, every normalized entry lies in
`[0, 1]` and the values 0 and 1 are both attained; whenever the smoothed
tensor is constant, the divisor `max - min` is exactly 0 (and the definition
of `CLIPSeg.normalizeStep` performs the division regardless). -/
theorem normalizeStep_range (m : Mat) (hr : 0 < m.rows) (hc : 0 < m.cols) :
    ((∃ i, i < m.rows ∧ ∃ j, j < m.cols ∧ ∃ i', i' < m.rows ∧ ∃ j', j' < m.cols ∧
        m.val i j ≠ m.val i' j') →
      (∀ i, i < m.rows → ∀ j, j < m.cols →
        0 ≤ (CLIPSeg.normalizeStep m).val i j ∧ (CLIPSeg.normalizeStep m).val i j ≤ 1) ∧
      (∃ i, i < m.rows ∧ ∃ j, j < m.cols ∧ (CLIPSeg.normalizeStep m).val i j = 0) ∧
      (∃ i, i < m.rows ∧ ∃ j, j < m.cols ∧ (CLIPSeg.normalizeStep m).val i j = 1)) ∧
    ((∀ i, i < m.rows → ∀ j, j < m.cols → ∀ i', i' < m.rows → ∀ j', j' < m.cols →
        m.val i j = m.val i' j') →
      m.maxVal - m.minVal = 0) := by
  constructor
  · rintro ⟨i1, hi1, j1, hj1, i2, hi2, j2, hj2, hne⟩
    have hlt : m.minVal < m.maxVal := by
      rcases lt_or_eq_of_le (le_trans (Mat.minVal_le hi1 hj1) (Mat.le_maxVal hi1 hj1)) with h | h
      · exact h
      · exfalso
        apply hne
        have e1 : m.val i1 j1 = m.minVal :=
          le_antisymm (h ▸ Mat.le_maxVal hi1 hj1) (Mat.minVal_le hi1 hj1)
        have e2 : m.val i2 j2 = m.minVal :=
          le_antisymm (h ▸ Mat.le_maxVal hi2 hj2) (Mat.minVal_le hi2 hj2)
        rw [e1, e2]
    have hden : 0 < m.maxVal - m.minVal := sub_pos.mpr hlt
    refine ⟨?_, ?_, ?_⟩
    · intro i hi j hj
      constructor
      · exact div_nonneg (sub_nonneg.mpr (Mat.minVal_le hi hj)) (le_of_lt hden)
      · exact div_le_one_of_le₀ (sub_le_sub_right (Mat.le_maxVal hi hj) _) (le_of_lt hden)
    · obtain ⟨i, hi, j, hj, hv⟩ := Mat.minVal_mem hr hc
      refine ⟨i, hi, j, hj, ?_⟩
      show (m.val i j - m.minVal) / (m.maxVal - m.minVal) = 0
      rw [hv, sub_self, zero_div]
    · obtain ⟨i, hi, j, hj, hv⟩ := Mat.maxVal_mem hr hc
      refine ⟨i, hi, j, hj, ?_⟩
      show (m.val i j - m.minVal) / (m.maxVal - m.minVal) = 1
      rw [hv, div_self (ne_of_gt hden)]
  · intro hconst
    obtain ⟨i1, hi1, j1, hj1, hmax⟩ := Mat.maxVal_mem hr hc
    obtain ⟨i2, hi2, j2, hj2, hmin⟩ := Mat.minVal_mem hr hc
    rw [← hmax, ← hmin, hconst i1 hi1 j1 hj1 i2 hi2 j2 hj2, sub_self]

/-- A concrete 1 × 2 smoothed tensor with entries 0 and 1. -/
def matC8 : Mat :=
  ⟨1, 2, fun i j => (j : ℚ)⟩

/-- Witness for `normalizeStep_range` at `matC8`: the hypotheses hold and the
normalized entries are 0 and 1. -/
theorem normalizeStep_range_witness :
    0 < matC8.rows ∧ 0 < matC8.cols ∧
    ((∀ i, i < matC8.rows → ∀ j, j < matC8.cols →
        0 ≤ (CLIPSeg.normalizeStep matC8).val i j ∧ (CLIPSeg.normalizeStep matC8).val i j ≤ 1) ∧
      (∃ i, i < matC8.rows ∧ ∃ j, j < matC8.cols ∧ (CLIPSeg.normalizeStep matC8).val i j = 0) ∧
      (∃ i, i < matC8.rows ∧ ∃ j, j < matC8.cols ∧ (CLIPSeg.normalizeStep matC8).val i j = 1)) :=
  ⟨by decide, by decide,
    (normalizeStep_range matC8 (by decide) (by decide)).1
      ⟨0, by decide, 0, by decide, 0, by decide, 1, by decide, by decide⟩⟩

/-- A concrete, fully computable collaborator bundle used by the witnesses:
identity-like behaviours for every external routine. -/
def extId : Libs :=
  { sigmoid := fun v => v
    gaussian_filter := fun m _ => m
    resize := fun img _ => img
    viridis := fun v => (v, v, v)
    greys_r := fun v => (v, v, v)
    to_pil := fun q => ⟨q.rows, q.cols, fun i j => (npUint8 ((q.px i j).1 * 255),
      npUint8 ((q.px i j).2.1 * 255), npUint8 ((q.px i j).2.2 * 255))⟩
    clipseg_logits := fun _ _ => ⟨1, 1, fun _ _ => 0⟩
    should_use_fp16 := false
    torch_device := Device.cpu }

/-- Claim C3: the threshold step (line 174) maps each in-range element `v` of
the sigmoid of the model's logits to `v` itself when `v` is strictly greater
than the threshold and to 0 otherwise — values above the threshold are kept
unchanged, not binarized — and it preserves the tensor's shape. -/
theorem thresholdStep_keeps_values (ext : Libs) (flat : Mat) (threshold : ℚ)
    (i j : ℕ) (hi : i < flat.rows) (hj : j < flat.cols) :
    (CLIPSeg.thresholdStep threshold (CLIPSeg.sigmoidMat ext flat)).rows = flat.rows ∧
    (CLIPSeg.thresholdStep threshold (CLIPSeg.sigmoidMat ext flat)).cols = flat.cols ∧
    (ext.sigmoid (flat.val i j) > threshold →
      (CLIPSeg.thresholdStep threshold (CLIPSeg.sigmoidMat ext flat)).val i j
        = ext.sigmoid (flat.val i j)) ∧
    (¬ ext.sigmoid (flat.val i j) > threshold →
      (CLIPSeg.thresholdStep threshold (CLIPSeg.sigmoidMat ext flat)).val i j = 0) := by
  refine ⟨rfl, rfl, fun h => ?_, fun h => ?_⟩
  · show (if ext.sigmoid (flat.val i j) > threshold then ext.sigmoid (flat.val i j) else 0)
      = ext.sigmoid (flat.val i j)
    rw [if_pos h]
  · show (if ext.sigmoid (flat.val i j) > threshold then ext.sigmoid (flat.val i j) else 0) = 0
    rw [if_neg h]

/-- A concrete 1 × 2 logits tensor with sigmoid values 3/10 and 7/10 under
`extId` (whose sigmoid is the identity). -/
def matC3 : Mat :=
  ⟨1, 2, fun i j => if j = 0 then 3 / 10 else 7 / 10⟩

/-- Witness for `thresholdStep_keeps_values` at `extId`, `matC3`, threshold
2/5: the entry 7/10 survives unchanged and the entry 3/10 becomes 0. -/
theorem thresholdStep_keeps_values_witness :
    0 < matC3.rows ∧ 1 < matC3.cols ∧
    (CLIPSeg.thresholdStep (2 / 5) (CLIPSeg.sigmoidMat extId matC3)).val 0 1 = 7 / 10 ∧
    (CLIPSeg.thresholdStep (2 / 5) (CLIPSeg.sigmoidMat extId matC3)).val 0 0 = 0 := by
  have h1 := thresholdStep_keeps_values extId matC3 (2 / 5) 0 1 (by decide) (by decide)
  have h0 := thresholdStep_keeps_values extId matC3 (2 / 5) 0 0 (by decide) (by decide)
  refine ⟨by decide, by decide, ?_, ?_⟩
  · rw [h1.2.2.1 (by norm_num [extId, matC3])]
    norm_num [extId, matC3]
  · exact h0.2.2.2 (by norm_num [extId, matC3])

/-! Helper lemmas for `dilate_mask`. -/

theorem cv2_dilate_rows (m : Mat) (k : ℕ) : (cv2_dilate m k).rows = m.rows := rfl

theorem cv2_dilate_cols (m : Mat) (k : ℕ) : (cv2_dilate m k).cols = m.cols := rfl

theorem windowIdx_one (i j : ℕ) : windowIdx 1 i j = [((i : ℤ), (j : ℤ))] := by
  have h1 : List.range 1 = [0] := rfl
  simp [windowIdx, h1]

theorem cv2_dilate_one {m : Mat} {i j : ℕ} (hi : i < m.rows) (hj : j < m.cols) :
    (cv2_dilate m 1).val i j = m.val i j := by
  have hcond : 0 ≤ (i : ℤ) ∧ (i : ℤ) < (m.rows : ℤ) ∧
      0 ≤ (j : ℤ) ∧ (j : ℤ) < (m.cols : ℤ) := by
    refine ⟨by positivity, by exact_mod_cast hi, by positivity, by exact_mod_cast hj⟩
  show ((((windowIdx 1 i j).filterMap fun p =>
      if 0 ≤ p.1 ∧ p.1 < (m.rows : ℤ) ∧ 0 ≤ p.2 ∧ p.2 < (m.cols : ℤ) then
        some (m.val p.1.toNat p.2.toNat)
      else none).max?).getD 0) = m.val i j
  rw [windowIdx_one]
  simp only [List.filterMap_cons, List.filterMap_nil, if_pos hcond]
  show (List.max? [m.val ((i : ℤ)).toNat ((j : ℤ)).toNat]).getD 0 = m.val i j
  simp

/-- The `TypeError`-free portion of claim C7 fails as universally stated:
`dilate_mask`'s parameter is annotated `float`, and at
`dilation_factor = 0.75` the kernel size `int(0.75 * 2) + 1 = 2` is even. -/
theorem kernel_size_even_counterexample :
    kernel_size (3 / 4 : ℚ) = 2 ∧ ¬ Odd (kernel_size (3 / 4 : ℚ)) := by
  have h : kernel_size (3 / 4 : ℚ) = 2 := by
    have h32 : ((3 / 4 : ℚ) * 2) = 3 / 2 := by norm_num
    have hfl : ⌊(3 / 2 : ℚ)⌋ = 1 := by
      rw [Int.floor_eq_iff]
      norm_num
    rw [kernel_size, pyInt, h32, if_pos (by norm_num), hfl]
    norm_num
  refine ⟨h, ?_⟩
  rw [h]
  rintro ⟨n, hn⟩
  omega

/-- Claim C7 (amended): `dilate_mask` with `dilation_factor = 0` uses a 1 × 1
kernel and returns the mask with shape and every in-range entry unchanged
(up to the value-preserving dtype cast); and for every dilation factor that
is a nonnegative integer — the only values the node's `INT` input with
`min 0` supplies — the kernel size `int(d * 2) + 1 = 2 * d + 1` is odd and
at least 1. -/
theorem dilate_mask_zero_id_kernel_odd :
    (∀ (m : Mat) (dtype : Dtype),
      (dilate_mask m 0 dtype).rows = m.rows ∧ (dilate_mask m 0 dtype).cols = m.cols ∧
      ∀ i, i < m.rows → ∀ j, j < m.cols → (dilate_mask m 0 dtype).val i j = m.val i j) ∧
    (∀ d : ℕ, kernel_size (d : ℚ) = 2 * d + 1 ∧
      Odd (kernel_size (d : ℚ)) ∧ 1 ≤ kernel_size (d : ℚ)) := by
  have hks : ∀ d : ℕ, kernel_size (d : ℚ) = 2 * d + 1 := by
    intro d
    have hcast : ((d : ℚ) * 2) = ((2 * d : ℤ) : ℚ) := by push_cast; ring
    rw [kernel_size, pyInt, if_pos (by positivity), hcast, Int.floor_intCast]
  constructor
  · intro m dtype
    have hk : (kernel_size ((0 : ℕ) : ℚ)).toNat = 1 := by rw [hks 0]; rfl
    have hk0 : (kernel_size (0 : ℚ)).toNat = 1 := by
      simpa using hk
    refine ⟨rfl, rfl, ?_⟩
    intro i hi j hj
    show (cv2_dilate m (kernel_size (0 : ℚ)).toNat).val i j = m.val i j
    rw [hk0]
    exact cv2_dilate_one hi hj
  · intro d
    refine ⟨hks d, ?_, ?_⟩
    · exact ⟨d, by rw [hks d]⟩
    · rw [hks d]; omega

/-- A concrete 2 × 2 mask. -/
def matC7 : Mat :=
  ⟨2, 2, fun i j => (i : ℚ) + 2 * (j : ℚ)⟩

/-- Witness for `dilate_mask_zero_id_kernel_odd`: at `matC7` a zero dilation
factor changes no entry, and the integer dilation factor 4 (the node's
default) yields the odd kernel size 9. -/
theorem dilate_mask_zero_id_kernel_odd_witness :
    ((dilate_mask matC7 0 Dtype.float32).val 1 1 = matC7.val 1 1 ∧
      (dilate_mask matC7 0 Dtype.float32).rows = matC7.rows) ∧
    kernel_size ((4 : ℕ) : ℚ) = 9 := by
  refine ⟨⟨(dilate_mask_zero_id_kernel_odd.1 matC7 Dtype.float32).2.2 1 (by decide) 1 (by decide),
    (dilate_mask_zero_id_kernel_odd.1 matC7 Dtype.float32).1⟩, ?_⟩
  rw [(dilate_mask_zero_id_kernel_odd.2 4).1]
  norm_num

/-! Helper lemmas for `overlay_image` at alpha 1. -/

theorem npUint8_le (q : ℚ) : npUint8 q ≤ 255 :=
  Nat.le_of_lt_succ (Nat.mod_lt _ (by norm_num))

theorem satUint8_of_le {n : ℕ} (h : n ≤ 255) : satUint8 (n : ℤ) = n := by
  rw [satUint8]
  omega

theorem addWeighted_pixel_one {b f : ℕ} (hf : f ≤ 255) :
    satUint8 (cvRound ((1 - 1) * (b : ℚ) + 1 * (f : ℚ) + 0)) = f := by
  have h : ((1 - 1) * (b : ℚ) + 1 * (f : ℚ) + 0) = (f : ℚ) := by ring
  rw [h, cvRound, round_natCast]
  exact satUint8_of_le hf

theorem overlay_one_px {bg fg : Img} (i j : ℕ)
    (h1 : (fg.px i j).1 ≤ 255) (h2 : (fg.px i j).2.1 ≤ 255) (h3 : (fg.px i j).2.2 ≤ 255) :
    (overlay_image bg fg 1).px i j = fg.px i j := by
  show (satUint8 (cvRound ((1 - 1) * ((bg.px i j).1 : ℚ) + 1 * ((fg.px i j).1 : ℚ) + 0)),
      satUint8 (cvRound ((1 - 1) * ((bg.px i j).2.1 : ℚ) + 1 * ((fg.px i j).2.1 : ℚ) + 0)),
      satUint8 (cvRound ((1 - 1) * ((bg.px i j).2.2 : ℚ) + 1 * ((fg.px i j).2.2 : ℚ) + 0)))
    = fg.px i j
  rw [addWeighted_pixel_one h1, addWeighted_pixel_one h2, addWeighted_pixel_one h3]

/-- Claim C6: `overlay_image` with `alpha = 1` weights the background by
`1 - alpha = 0` and the foreground by 1, so for same-shape uint8 inputs it
returns the foreground unchanged and ignores the background entirely;
consequently the binary overlay produced by `get_binary` (and its tensor
form) and by `combine_masks` equals the resized binary colormap image,
independent of the input image's pixel values. -/
theorem overlay_alpha_one_spec :
    (∀ bg fg : Img, bg.rows = fg.rows → bg.cols = fg.cols →
      (∀ i, i < fg.rows → ∀ j, j < fg.cols → (fg.px i j).1 ≤ 255 ∧
        (fg.px i j).2.1 ≤ 255 ∧ (fg.px i j).2.2 ≤ 255) →
      (overlay_image bg fg 1).rows = fg.rows ∧ (overlay_image bg fg 1).cols = fg.cols ∧
      ∀ i, i < fg.rows → ∀ j, j < fg.cols → (overlay_image bg fg 1).px i j = fg.px i j) ∧
    (∀ (ext : Libs) (mask : Mat) (image image' : Img) (dtype : Dtype),
      image'.rows = image.rows → image'.cols = image.cols →
      ((∀ i, i < image.rows → ∀ j, j < image.cols →
          (((get_binary ext mask image dtype).2.px i j).1 ≤ 255 ∧
           ((get_binary ext mask image dtype).2.px i j).2.1 ≤ 255 ∧
           ((get_binary ext mask image dtype).2.px i j).2.2 ≤ 255)) →
        (get_binary ext mask image dtype).2.rows = image.rows →
        (get_binary ext mask image dtype).2.cols = image.cols →
        ∀ i, i < image.rows → ∀ j, j < image.cols →
          ((get_binary ext mask image dtype).1).px i j
            = (numpy_to_tensor ((get_binary ext mask image dtype).2) dtype).px i j ∧
          ((get_binary ext mask image' dtype).1).px i j
            = ((get_binary ext mask image dtype).1).px i j) ∧
      (get_binary ext mask image' dtype).2 = (get_binary ext mask image dtype).2) ∧
    (∀ (ext : Libs) (image_np : Img) (cm : Mat),
      (∀ i, i < image_np.rows → ∀ j, j < image_np.cols →
        ((CombineMasks.binary_mask_resized ext image_np cm).px i j).1 ≤ 255 ∧
        ((CombineMasks.binary_mask_resized ext image_np cm).px i j).2.1 ≤ 255 ∧
        ((CombineMasks.binary_mask_resized ext image_np cm).px i j).2.2 ≤ 255) →
      (CombineMasks.binary_mask_resized ext image_np cm).rows = image_np.rows →
      (CombineMasks.binary_mask_resized ext image_np cm).cols = image_np.cols →
      ∀ i, i < image_np.rows → ∀ j, j < image_np.cols →
        (CombineMasks.overlay_binary ext image_np cm).px i j
          = (CombineMasks.binary_mask_resized ext image_np cm).px i j) := by
  refine ⟨?_, ?_, ?_⟩
  · intro bg fg hr hc hb
    refine ⟨hr, hc, ?_⟩
    intro i hi j hj
    exact overlay_one_px i j (hb i hi j hj).1 (hb i hi j hj).2.1 (hb i hi j hj).2.2
  · intro ext mask image image' dtype hr' hc'
    have h2eq : (get_binary ext mask image' dtype).2 = (get_binary ext mask image dtype).2 := by
      show resize_image ext (apply_colormap ext.greys_r mask) (image'.cols, image'.rows)
        = resize_image ext (apply_colormap ext.greys_r mask) (image.cols, image.rows)
      rw [hr', hc']
    refine ⟨?_, h2eq⟩
    intro hb h2r h2c i hi j hj
    have hbij := hb i hi j hj
    have hov : (overlay_image image ((get_binary ext mask image dtype).2) 1).px i j
        = ((get_binary ext mask image dtype).2).px i j :=
      overlay_one_px i j hbij.1 hbij.2.1 hbij.2.2
    have hov' : (overlay_image image' ((get_binary ext mask image' dtype).2) 1).px i j
        = ((get_binary ext mask image dtype).2).px i j := by
      rw [h2eq]
      exact overlay_one_px i j hbij.1 hbij.2.1 hbij.2.2
    constructor
    · show ((numpy_to_tensor (overlay_image image ((get_binary ext mask image dtype).2) 1)
          dtype).px i j)
        = (numpy_to_tensor ((get_binary ext mask image dtype).2) dtype).px i j
      show ((((overlay_image image ((get_binary ext mask image dtype).2) 1).px i j).1 : ℚ) / 255,
          (((overlay_image image ((get_binary ext mask image dtype).2) 1).px i j).2.1 : ℚ) / 255,
          (((overlay_image image ((get_binary ext mask image dtype).2) 1).px i j).2.2 : ℚ) / 255)
        = ((((get_binary ext mask image dtype).2.px i j).1 : ℚ) / 255,
          (((get_binary ext mask image dtype).2.px i j).2.1 : ℚ) / 255,
          (((get_binary ext mask image dtype).2.px i j).2.2 : ℚ) / 255)
      rw [hov]
    · show ((numpy_to_tensor (overlay_image image' ((get_binary ext mask image' dtype).2) 1)
          dtype).px i j)
        = (numpy_to_tensor (overlay_image image ((get_binary ext mask image dtype).2) 1)
          dtype).px i j
      show ((((overlay_image image' ((get_binary ext mask image' dtype).2) 1).px i j).1 : ℚ) / 255,
          (((overlay_image image' ((get_binary ext mask image' dtype).2) 1).px i j).2.1 : ℚ) / 255,
          (((overlay_image image' ((get_binary ext mask image' dtype).2) 1).px i j).2.2 : ℚ) / 255)
        = ((((overlay_image image ((get_binary ext mask image dtype).2) 1).px i j).1 : ℚ) / 255,
          (((overlay_image image ((get_binary ext mask image dtype).2) 1).px i j).2.1 : ℚ) / 255,
          (((overlay_image image ((get_binary ext mask image dtype).2) 1).px i j).2.2 : ℚ) / 255)
      rw [hov, hov']
  · intro ext image_np cm hb h2r h2c i hi j hj
    have hbij := hb i hi j hj
    exact overlay_one_px i j hbij.1 hbij.2.1 hbij.2.2

/-- A concrete 1 × 1 background image. -/
def imgBgC6 : Img :=
  ⟨1, 1, fun _ _ => (5, 6, 7)⟩

/-- A second 1 × 1 background image with entirely different pixels. -/
def imgBgC6' : Img :=
  ⟨1, 1, fun _ _ => (250, 0, 9)⟩

/-- A concrete 1 × 1 foreground image with uint8 pixels. -/
def imgFgC6 : Img :=
  ⟨1, 1, fun _ _ => (100, 200, 255)⟩

/-- A concrete 1 × 1 mask. -/
def maskC6 : Mat :=
  ⟨1, 1, fun _ _ => 0⟩

/-- Witness for `overlay_alpha_one_spec`: all three parts instantiated at
concrete inputs, every hypothesis discharged. -/
theorem overlay_alpha_one_spec_witness :
    (overlay_image imgBgC6 imgFgC6 1).px 0 0 = imgFgC6.px 0 0 ∧
    (get_binary extId maskC6 imgBgC6' Dtype.float32).2
      = (get_binary extId maskC6 imgBgC6 Dtype.float32).2 ∧
    ((get_binary extId maskC6 imgBgC6 Dtype.float32).1).px 0 0
      = (numpy_to_tensor ((get_binary extId maskC6 imgBgC6 Dtype.float32).2)
          Dtype.float32).px 0 0 ∧
    (CombineMasks.overlay_binary extId imgBgC6 maskC6).px 0 0
      = (CombineMasks.binary_mask_resized extId imgBgC6 maskC6).px 0 0 := by
  have hbGB : ∀ i, i < imgBgC6.rows → ∀ j, j < imgBgC6.cols →
      (((get_binary extId maskC6 imgBgC6 Dtype.float32).2.px i j).1 ≤ 255 ∧
       ((get_binary extId maskC6 imgBgC6 Dtype.float32).2.px i j).2.1 ≤ 255 ∧
       ((get_binary extId maskC6 imgBgC6 Dtype.float32).2.px i j).2.2 ≤ 255) :=
    fun i _ j _ => ⟨npUint8_le _, npUint8_le _, npUint8_le _⟩
  have hbCM : ∀ i, i < imgBgC6.rows → ∀ j, j < imgBgC6.cols →
      ((CombineMasks.binary_mask_resized extId imgBgC6 maskC6).px i j).1 ≤ 255 ∧
      ((CombineMasks.binary_mask_resized extId imgBgC6 maskC6).px i j).2.1 ≤ 255 ∧
      ((CombineMasks.binary_mask_resized extId imgBgC6 maskC6).px i j).2.2 ≤ 255 :=
    fun i _ j _ => ⟨npUint8_le _, npUint8_le _, npUint8_le _⟩
  refine ⟨(overlay_alpha_one_spec.1 imgBgC6 imgFgC6 rfl rfl (by decide)).2.2 0 (by decide) 0
      (by decide),
    (overlay_alpha_one_spec.2.1 extId maskC6 imgBgC6 imgBgC6' Dtype.float32 rfl rfl).2,
    ((overlay_alpha_one_spec.2.1 extId maskC6 imgBgC6 imgBgC6 Dtype.float32 rfl rfl).1 hbGB rfl
      rfl 0 (by decide) 0 (by decide)).1,
    overlay_alpha_one_spec.2.2 extId imgBgC6 maskC6 hbCM rfl rfl 0 (by decide) 0 (by decide)⟩

/-- Claim C1 (code defect): `segment_image` arranges the pipeline in the fixed
order sigmoid → threshold → Gaussian blur (sigma = blur) → normalize →
dilate → colorize → resize → alpha-composite, but for every input and every
(successful) behaviour of the external libraries its result is the
`TypeError` raised at line 185, where `dilate_mask(mask_normalized,
dilation_factor)` omits the required `dtype` argument; the three output
tensors are never produced. -/
theorem segment_image_always_typeerror (ext : Libs) (s : CLIPSegState) (image : QImg)
    (prompt : String) (blur threshold : ℚ) (dilation_factor : ℚ) :
    (CLIPSeg.segment_image ext s image prompt blur threshold dilation_factor).1
      = Except.error (PyErr.typeError msg_dilate_mask_arity) := rfl

/-- Claim C2 (code defect): `combine_masks` computes the elementwise sum
`mask_1 + mask_2 (+ mask_3)` with no clipping or renormalization, but for
every input its result is the `TypeError` raised at line 234, where
`numpy_to_tensor(overlay_heatmap)` omits the required `dtype` argument; the
combined mask and the two overlays are never returned. -/
theorem combine_masks_always_typeerror (ext : Libs) (input_image : QImg)
    (mask_1 mask_2 : Mat) (mask_3 : Option Mat) :
    CombineMasks.combine_masks ext input_image mask_1 mask_2 mask_3
      = Except.error (PyErr.typeError msg_numpy_to_tensor_arity) ∧
    (∀ i j, (CombineMasks.combined_mask mask_1 mask_2 none).val i j
      = mask_1.val i j + mask_2.val i j) ∧
    (∀ m3 i j, (CombineMasks.combined_mask mask_1 mask_2 (some m3)).val i j
      = mask_1.val i j + mask_2.val i j + m3.val i j) :=
  ⟨rfl, fun _ _ => rfl, fun _ _ _ => rfl⟩

/-- Claim C4: a `segment_image` invocation leaves the node state (`dtype`,
`device`, both set in `__init__`) unchanged, its effect trace is exactly a
fresh processor load, a fresh model load and one inference — the model is
reloaded from `./clipseg-rd64-refined` on every call, nothing is cached —
and nothing is ever written to persistent storage; `do_clipseg` itself
produces exactly those effects on every call, and `combine_masks` touches
no state and performs no effect (its embedding is a pure function of its
arguments). -/
theorem segment_image_frame (ext : Libs) (s : CLIPSegState) (image : QImg)
    (prompt : String) (blur threshold : ℚ) (dilation_factor : ℚ) (images : List Img) :
    (CLIPSeg.segment_image ext s image prompt blur threshold dilation_factor).2.1 = s ∧
    (CLIPSeg.segment_image ext s image prompt blur threshold dilation_factor).2.2
      = [Effect.loadProcessor clipseg_model_dir, Effect.loadModel clipseg_model_dir,
        Effect.runInference] ∧
    (CLIPSeg.do_clipseg ext s prompt images).2
      = [Effect.loadProcessor clipseg_model_dir, Effect.loadModel clipseg_model_dir,
        Effect.runInference] ∧
    (∀ p, Effect.writeStorage p ∉
      (CLIPSeg.segment_image ext s image prompt blur threshold dilation_factor).2.2) ∧
    CLIPSeg.init ext
      = ⟨if ext.should_use_fp16 then Dtype.float16 else Dtype.float32, ext.torch_device⟩ := by
  refine ⟨rfl, rfl, rfl, ?_, rfl⟩
  intro p
  show Effect.writeStorage p ∉ [Effect.loadProcessor clipseg_model_dir,
    Effect.loadModel clipseg_model_dir, Effect.runInference]
  simp

/-- Claim C5: the module installs no exception handler (every embedded
function is a plain composition in the `Except` monad, never catching or
transforming an error), yet even when every underlying library call
succeeds — the `Libs` collaborators here are total functions — both entry
points raise a `TypeError` of the module's own making, so the claim's "no
other error is raised by the module's own code" part fails. -/
theorem module_raises_own_typeerror (ext : Libs) (s : CLIPSegState)
    (image input_image : QImg) (prompt : String) (blur threshold dilation_factor : ℚ)
    (mask_1 mask_2 : Mat) (mask_3 : Option Mat) :
    (∃ msg, (CLIPSeg.segment_image ext s image prompt blur threshold dilation_factor).1
      = Except.error (PyErr.typeError msg)) ∧
    (∃ msg, CombineMasks.combine_masks ext input_image mask_1 mask_2 mask_3
      = Except.error (PyErr.typeError msg)) :=
  ⟨⟨msg_dilate_mask_arity, rfl⟩, ⟨msg_numpy_to_tensor_arity, rfl⟩⟩
